import Mathlib

/- Formal model of the InsurancePro email campaign system (src/app.py):
   the subscriber registry (subscribe / reactivate / unsubscribe), the
   unsubscribe token codec, the email template renderer, the mail
   transport credential guard, and the campaign dispatcher.  Database
   rows are modelled as Lean structures, tables as lists of rows, and
   the SQLAlchemy mutations as pure state-passing functions.  Timestamps
   (datetime.utcnow) are modelled as natural numbers supplied by the
   caller; the SMTP session and the itsdangerous signature are modelled
   as oracle function parameters where their internals lie outside the
   repository. -/

namespace InsurancePro

/-- Subscriber row (class Subscriber, src/app.py lines 38-46).  Field
defaults mirror the column defaults: status is active, phone and
last_campaign_sent are NULL. -/
structure Subscriber where
  email : String
  name : String := ""
  phone : Option String := none
  insurance_type : String := ""
  status : String := "active"
  subscribed_at : Nat := 0
  last_campaign_sent : Option Nat := none
deriving DecidableEq

/-- Campaign row (class Campaign, src/app.py lines 57-70).  Field
defaults mirror the column defaults. -/
structure Campaign where
  name : String
  subject : String
  content : String
  template_type : String := "default"
  status : String := "draft"
  target_segment : String := "all"
  created_at : Nat := 0
  sent_at : Option Nat := none
  total_recipients : Nat := 0
  sent_count : Nat := 0
  failed_count : Nat := 0
  opened_count : Nat := 0
deriving DecidableEq

/-- Model of Python str.strip applied to each form field in the
subscribe route (src/app.py lines 318-320): drop whitespace from both
ends.  Written over the character list so that it evaluates by kernel
reduction. -/
def pyStrip (s : String) : String :=
  String.mk (((s.data.dropWhile Char.isWhitespace).reverse.dropWhile Char.isWhitespace).reverse)

/-- Subscriber.query.filter_by(email=email).first() (src/app.py line
328): the first row whose email column equals the given email exactly
(SQLite string equality is case-sensitive). -/
def findSubscriber (subs : List Subscriber) (email : String) : Option Subscriber :=
  subs.find? (fun s => s.email == email)

/-- Mutation of the row object returned by first(): replace the first
row whose email matches, leaving every other row untouched. -/
def updateFirst (subs : List Subscriber) (email : String) (f : Subscriber → Subscriber) :
    List Subscriber :=
  match subs with
  | [] => []
  | s :: rest => if s.email == email then f s :: rest else s :: updateFirst rest email f

/-- Outcome of the subscribe route, one per response branch
(src/app.py lines 316-349). -/
inductive SubscribeOutcome where
  | invalidEmail
  | reactivated
  | alreadySubscribed
  | subscribed
deriving DecidableEq

/-- Reactivation of an unsubscribed row (src/app.py lines 331-332):
status is set back to active and the name is overwritten only when the
submitted name is non-empty (Python: name or existing.name).  No other
column is assigned. -/
def reactivateRecord (name : String) (r : Subscriber) : Subscriber :=
  { r with status := "active", name := if name = "" then r.name else name }

/-- The subscribe route (src/app.py lines 316-349).  emailValid stands
for validate_email_address (the email_validator library, outside this
repository); the three string arguments are the raw form fields, each
stripped as in the source.  Returns the outcome branch taken and the
updated subscriber table. -/
def subscribe (emailValid : String → Bool) (subs : List Subscriber)
    (form_email form_name form_insurance_type : String) (now : Nat) :
    SubscribeOutcome × List Subscriber :=
  let email := pyStrip form_email
  let name := pyStrip form_name
  let insurance_type := pyStrip form_insurance_type
  if email = "" ∨ emailValid email = false then
    (SubscribeOutcome.invalidEmail, subs)
  else
    match findSubscriber subs email with
    | some existing =>
      if existing.status = "unsubscribed" then
        (SubscribeOutcome.reactivated, updateFirst subs email (reactivateRecord name))
      else
        (SubscribeOutcome.alreadySubscribed, subs)
    | none =>
      (SubscribeOutcome.subscribed,
        subs ++ [{ email := email, name := name, phone := none
                   insurance_type := insurance_type, status := "active"
                   subscribed_at := now, last_campaign_sent := none }])

/-- Registry effect of the unsubscribe route once the token has been
verified (src/app.py lines 355-361): the matching row, if any, has its
status set to unsubscribed. -/
def unsubscribe_subscriber (subs : List Subscriber) (email : String) :
    Bool × List Subscriber :=
  match findSubscriber subs email with
  | some _ => (true, updateFirst subs email (fun r => { r with status := "unsubscribed" }))
  | none => (false, subs)

/-- Result of verifying an unsubscribe token. -/
inductive VerifyResult where
  | ok (email : String)
  | invalidToken
  | expiredToken
deriving DecidableEq

/-- Modelled from the spec: the signed timestamped capsule produced by
the Token Codec (itsdangerous URLSafeTimedSerializer with salt
unsubscribe, src/app.py lines 28, 354, 474 — the serializer internals
are library code, not part of src/).  A token binds an email, its issue
time, and a signature value. -/
structure UnsubToken where
  email : String
  issued_at : Nat
  sig : Nat
deriving DecidableEq

/-- Maximum token age accepted by serializer.loads (src/app.py line
354): one year, in seconds. -/
def maxTokenAge : Nat := 31536000

/-- Modelled from the spec: serializer.dumps (src/app.py line 474)
serializes the email with the issue timestamp and signs it with the
process-wide secret; sign abstracts the keyed, salted HMAC. -/
def issueToken (sign : String → Nat → Nat) (email : String) (now : Nat) : UnsubToken :=
  { email := email, issued_at := now, sig := sign email now }

/-- Modelled from the spec: serializer.loads with max_age (src/app.py
line 354) recomputes the signature over the payload and rejects a
mismatch, then rejects a token older than maxTokenAge, and otherwise
returns the bound email. -/
def verifyToken (sign : String → Nat → Nat) (tok : UnsubToken) (now : Nat) : VerifyResult :=
  if tok.sig ≠ sign tok.email tok.issued_at then VerifyResult.invalidToken
  else if now - tok.issued_at > maxTokenAge then VerifyResult.expiredToken
  else VerifyResult.ok tok.email

/-- Process-wide SMTP configuration (src/app.py lines 31-35). -/
structure SmtpConfig where
  smtp_server : String
  smtp_port : Nat
  smtp_username : String
  smtp_password : String
  from_email : String
deriving DecidableEq

/-- Observable behaviour of one send_email call: the boolean it
returns, and whether it opened a connection to the relay. -/
structure SendEmailResult where
  returned : Bool
  connection_attempted : Bool
deriving DecidableEq

/-- send_email (src/app.py lines 153-175).  The guard: when username or
password is unset (empty), it returns False at once, before any SMTP
object is created.  Otherwise the smtplib session (connect, starttls,
login, send_message) runs; its success is abstracted by the transport
oracle, and every exception it may raise is caught by the enclosing
try/except and converted to False, so the call is total either way. -/
def send_email (cfg : SmtpConfig)
    (transport : String → String → String → Option String → Bool)
    (to_email subject html_content : String) (text_content : Option String) :
    SendEmailResult :=
  if cfg.smtp_username = "" ∨ cfg.smtp_password = "" then
    { returned := false, connection_attempted := false }
  else
    { returned := transport to_email subject html_content text_content,
      connection_attempted := true }

/-- The unsubscribe URL embedded in every rendered email
(src/app.py line 178). -/
def unsubscribe_link (unsubscribe_token : String) : String :=
  "http://localhost:5000/unsubscribe/" ++ unsubscribe_token

/-- An anchor element whose href is the given link, followed by the
anchor text and the rest of the document. -/
def anchorHref (link rest : String) : String :=
  ("<a href=\"" ++ link) ++ ("\">" ++ rest)

/-- The produced HTML embeds the link inside the href of an anchor. -/
def embedsInAnchor (html link : String) : Prop :=
  ∃ pre rest, html = pre ++ anchorHref link rest

/-- Default template (src/app.py lines 181-213), text before the
content slot. -/
def default_head : String :=
  "\n        <!DOCTYPE html>\n        <html>\n        <head>\n            <meta charset=\"UTF-8\">\n            <meta name=\"viewport\" content=\"width=device-width, initial-scale=1.0\">\n            <style>\n                body \x7b font-family: \x27Segoe UI\x27, Tahoma, Geneva, Verdana, sans-serif; margin: 0; padding: 0; background-color: #f4f4f4; \x7d\n                .container \x7b max-width: 600px; margin: 0 auto; background-color: #ffffff; \x7d\n                .header \x7b background: linear-gradient(135deg, #1e3c72 0%, #2a5298 100%); padding: 30px; text-align: center; \x7d\n                .header h1 \x7b color: #ffffff; margin: 0; font-size: 24px; \x7d\n                .content \x7b padding: 30px; line-height: 1.6; color: #333333; \x7d\n                .footer \x7b background-color: #f8f9fa; padding: 20px; text-align: center; font-size: 12px; color: #666666; \x7d\n                .footer a \x7b color: #2a5298; \x7d\n                .button \x7b display: inline-block; padding: 12px 24px; background: linear-gradient(135deg, #1e3c72 0%, #2a5298 100%); color: #ffffff; text-decoration: none; border-radius: 5px; margin: 10px 0; \x7d\n            </style>\n        </head>\n        <body>\n            <div class=\"container\">\n                <div class=\"header\">\n                    <h1>InsurancePro</h1>\n                </div>\n                <div class=\"content\">\n                    "

/-- Default template, text between the content slot and the
unsubscribe anchor. -/
def default_mid : String :=
  "\n                </div>\n                <div class=\"footer\">\n                    <p>Â© 2026 InsurancePro. All rights reserved.</p>\n                    <p>If you no longer wish to receive emails, "

/-- Default template, text after the unsubscribe link. -/
def default_tail : String :=
  "unsubscribe here</a>.</p>\n                </div>\n            </div>\n        </body>\n        </html>\n        "

/-- Promotional template (src/app.py lines 214-247), text before the
content slot. -/
def promotional_head : String :=
  "\n        <!DOCTYPE html>\n        <html>\n        <head>\n            <meta charset=\"UTF-8\">\n            <meta name=\"viewport\" content=\"width=device-width, initial-scale=1.0\">\n            <style>\n                body \x7b font-family: \x27Arial\x27, sans-serif; margin: 0; padding: 0; background-color: #f4f4f4; \x7d\n                .container \x7b max-width: 600px; margin: 0 auto; background-color: #ffffff; border-radius: 10px; overflow: hidden; box-shadow: 0 4px 6px rgba(0,0,0,0.1); \x7d\n                .header \x7b background: linear-gradient(135deg, #ff6b6b 0%, #ee5a24 100%); padding: 40px; text-align: center; \x7d\n                .header h1 \x7b color: #ffffff; margin: 0; font-size: 28px; \x7d\n                .content \x7b padding: 40px; line-height: 1.8; color: #333333; \x7d\n                .highlight \x7b background-color: #fff3cd; padding: 15px; border-left: 4px solid #ffc107; margin: 20px 0; \x7d\n                .footer \x7b background-color: #343a40; padding: 20px; text-align: center; font-size: 12px; color: #ffffff; \x7d\n                .footer a \x7b color: #ffc107; \x7d\n                .cta-button \x7b display: inline-block; padding: 15px 30px; background: linear-gradient(135deg, #ff6b6b 0%, #ee5a24 100%); color: #ffffff; text-decoration: none; border-radius: 25px; font-weight: bold; margin: 15px 0; \x7d\n            </style>\n        </head>\n        <body>\n            <div class=\"container\">\n                <div class=\"header\">\n                    <h1>ðŸŽ‰ Special Offer!</h1>\n                </div>\n                <div class=\"content\">\n                    "

/-- Promotional template, text between the content slot and the
unsubscribe anchor. -/
def promotional_mid : String :=
  "\n                </div>\n                <div class=\"footer\">\n                    <p>Â© 2026 InsurancePro. All rights reserved.</p>\n                    <p>"

/-- Promotional template, text after the unsubscribe link. -/
def promotional_tail : String :=
  "Unsubscribe</a> from promotional emails</p>\n                </div>\n            </div>\n        </body>\n        </html>\n        "

/-- Newsletter template (src/app.py lines 248-281), text before the
content slot. -/
def newsletter_head : String :=
  "\n        <!DOCTYPE html>\n        <html>\n        <head>\n            <meta charset=\"UTF-8\">\n            <meta name=\"viewport\" content=\"width=device-width, initial-scale=1.0\">\n            <style>\n                body \x7b font-family: \x27Georgia\x27, serif; margin: 0; padding: 0; background-color: #f9f9f9; \x7d\n                .container \x7b max-width: 600px; margin: 0 auto; background-color: #ffffff; \x7d\n                .header \x7b background-color: #2c3e50; padding: 25px; text-align: center; \x7d\n                .header h1 \x7b color: #ecf0f1; margin: 0; font-size: 26px; font-weight: normal; \x7d\n                .content \x7b padding: 35px; line-height: 1.7; color: #2c3e50; \x7d\n                .article \x7b margin-bottom: 25px; padding-bottom: 25px; border-bottom: 1px solid #ecf0f1; \x7d\n                .article:last-child \x7b border-bottom: none; \x7d\n                .footer \x7b background-color: #ecf0f1; padding: 20px; text-align: center; font-size: 11px; color: #7f8c8d; \x7d\n                .footer a \x7b color: #2c3e50; \x7d\n            </style>\n        </head>\n        <body>\n            <div class=\"container\">\n                <div class=\"header\">\n                    <h1>InsurancePro Newsletter</h1>\n                </div>\n                <div class=\"content\">\n                    "

/-- Newsletter template, text between the content slot and the
unsubscribe anchor. -/
def newsletter_mid : String :=
  "\n                </div>\n                <div class=\"footer\">\n                    <p>Â© 2026 InsurancePro. Stay informed, stay protected.</p>\n                    <p>"

/-- Newsletter template, text after the unsubscribe link. -/
def newsletter_tail : String :=
  "Manage subscription preferences</a></p>\n                </div>\n            </div>\n        </body>\n        </html>\n        "

/-- The default f-string document with content and link spliced in. -/
def defaultTemplate (content link : String) : String :=
  (default_head ++ content ++ default_mid) ++ anchorHref link default_tail

/-- The promotional f-string document with content and link spliced in. -/
def promotionalTemplate (content link : String) : String :=
  (promotional_head ++ content ++ promotional_mid) ++ anchorHref link promotional_tail

/-- The newsletter f-string document with content and link spliced in. -/
def newsletterTemplate (content link : String) : String :=
  (newsletter_head ++ content ++ newsletter_mid) ++ anchorHref link newsletter_tail

/-- get_email_template (src/app.py lines 177-284): builds the
unsubscribe link from the token, selects the document for the requested
variant, and falls back to the default document for any other key
(templates.get with default). -/
def get_email_template (template_type content unsubscribe_token : String) : String :=
  if template_type = "default" then
    defaultTemplate content (unsubscribe_link unsubscribe_token)
  else if template_type = "promotional" then
    promotionalTemplate content (unsubscribe_link unsubscribe_token)
  else if template_type = "newsletter" then
    newsletterTemplate content (unsubscribe_link unsubscribe_token)
  else
    defaultTemplate content (unsubscribe_link unsubscribe_token)

/-- What one iteration of the dispatch loop observes for one recipient
(src/app.py lines 472-484): send_email returned True; send_email
returned False; or an exception escaped from token issuance, rendering
or delivery and was caught by the per-recipient except clause. -/
inductive SendAttempt where
  | success
  | failure
  | raised
deriving DecidableEq

/-- Segment membership test used by the recipient query (src/app.py
lines 457-460): segment active selects status = active; any other
segment selects status in (active, empty). -/
def recipientPred (target_segment : String) (s : Subscriber) : Bool :=
  if target_segment = "active" then s.status == "active"
  else s.status == "active" || s.status == ""

/-- The resolved recipient set of a campaign (src/app.py lines
457-460). -/
def eligibleRecipients (target_segment : String) (subs : List Subscriber) : List Subscriber :=
  subs.filter (recipientPred target_segment)

/-- The per-recipient dispatch loop (src/app.py lines 469-484).
deliver is the outcome oracle for the i-th recipient; on success the
recipient row is stamped with last_campaign_sent, on failure or on a
caught exception the failed tally grows and the loop continues with the
next recipient.  Returns (sent_count, failed_count, updated recipient
rows). -/
def send_campaign_loop (deliver : Nat → SendAttempt) (now : Nat) :
    List Subscriber → Nat → Nat × Nat × List Subscriber
  | [], _ => (0, 0, [])
  | s :: rest, i =>
    let r := send_campaign_loop deliver now rest (i + 1)
    match deliver i with
    | SendAttempt.success => (r.1 + 1, r.2.1, { s with last_campaign_sent := some now } :: r.2.2)
    | SendAttempt.failure => (r.1, r.2.1 + 1, s :: r.2.2)
    | SendAttempt.raised => (r.1, r.2.1 + 1, s :: r.2.2)

/-- Write the updated recipient rows back into the subscriber table:
rows selected by the segment are replaced in order by the loop output,
rows outside the segment are untouched (in the source both alias the
same session objects). -/
def mergeBack (p : Subscriber → Bool) : List Subscriber → List Subscriber → List Subscriber
  | [], _ => []
  | s :: rest, updated =>
    if p s then
      match updated with
      | [] => s :: mergeBack p rest []
      | u :: us => u :: mergeBack p rest us
    else
      s :: mergeBack p rest updated

/-- JSON outcome of the send_campaign route (src/app.py lines 448-497),
one constructor per response branch. -/
inductive SendOutcome where
  | alreadySent
  | noSubscribers
  | sent (sent_count failed_count : Nat)
deriving DecidableEq

/-- send_campaign (src/app.py lines 448-497): refuse a resend of a sent
campaign; resolve the recipient set; refuse an empty set; otherwise
mark the campaign sending with its recipient total, run the loop, and
finish the campaign as sent with its tallies and timestamp. -/
def send_campaign (deliver : Nat → SendAttempt) (c : Campaign) (subs : List Subscriber)
    (now : Nat) : SendOutcome × Campaign × List Subscriber :=
  if c.status = "sent" then
    (SendOutcome.alreadySent, c, subs)
  else
    let recipients := eligibleRecipients c.target_segment subs
    if recipients = [] then
      (SendOutcome.noSubscribers, c, subs)
    else
      let sending := { c with status := "sending", total_recipients := recipients.length }
      let result := send_campaign_loop deliver now recipients 0
      let finished := { sending with
                        status := "sent", sent_at := some now
                        sent_count := result.1, failed_count := result.2.1 }
      (SendOutcome.sent result.1 result.2.1, finished,
        mergeBack (recipientPred c.target_segment) subs result.2.2)

/-- Outcome of the delete_campaign route (src/app.py lines 507-517). -/
inductive DeleteOutcome where
  | refused
  | deleted
deriving DecidableEq

/-- delete_campaign (src/app.py lines 507-517): a sent campaign is
refused and its row kept; any other campaign row is deleted. -/
def delete_campaign (c : Campaign) : DeleteOutcome × Option Campaign :=
  if c.status = "sent" then (DeleteOutcome.refused, some c)
  else (DeleteOutcome.deleted, none)

/-- Number of indices in the half-open range of the given length,
starting at the given index, at which the delivery oracle does not
report success. -/
def countFailures (deliver : Nat → SendAttempt) : Nat → Nat → Nat
  | _, 0 => 0
  | i, n + 1 => (if deliver i = SendAttempt.success then 0 else 1) + countFailures deliver (i + 1) n

/-- Number of rows carrying the given email. -/
def countEmail (subs : List Subscriber) (email : String) : Nat :=
  subs.countP (fun s => s.email == email)

/-- No two rows of the table carry the same email string. -/
def uniqueEmails (subs : List Subscriber) : Prop :=
  subs.Pairwise (fun a b => a.email ≠ b.email)

/-- Equality of emails up to letter case, evaluated over the character
lists. -/
def eqCaseInsensitive (a b : String) : Prop :=
  a.data.map Char.toLower = b.data.map Char.toLower

/-- No two rows of the table carry emails equal up to letter case. -/
def uniqueEmailsCI (subs : List Subscriber) : Prop :=
  subs.Pairwise (fun a b => ¬ eqCaseInsensitive a.email b.email)

/-- Modelled from the spec: email syntax validation
(validate_email_address wraps the email_validator library, which is not
part of src/).  A concrete stand-in validator used only to instantiate
theorems at concrete inputs: the address must contain an @ sign. -/
def validEmailModel (email : String) : Bool :=
  email.data.contains '@'
instance (a b : String) : Decidable (eqCaseInsensitive a b) :=
  inferInstanceAs (Decidable (a.data.map Char.toLower = b.data.map Char.toLower))

instance (subs : List Subscriber) : Decidable (uniqueEmails subs) :=
  inferInstanceAs (Decidable (subs.Pairwise (fun a b : Subscriber => a.email ≠ b.email)))

instance (subs : List Subscriber) : Decidable (uniqueEmailsCI subs) :=
  inferInstanceAs (Decidable (subs.Pairwise (fun a b : Subscriber => ¬ eqCaseInsensitive a.email b.email)))

theorem countFailures_le (deliver : Nat → SendAttempt) :
    ∀ (n i : Nat), countFailures deliver i n ≤ n := by
  intro n
  induction n with
  | zero => intro i; simp [countFailures]
  | succ m ih =>
    intro i
    have := ih (i + 1)
    simp only [countFailures]
    split <;> omega

theorem send_campaign_loop_counts (deliver : Nat → SendAttempt) (now : Nat) :
    ∀ (l : List Subscriber) (i : Nat),
      (send_campaign_loop deliver now l i).1 =
        l.length - countFailures deliver i l.length ∧
      (send_campaign_loop deliver now l i).2.1 = countFailures deliver i l.length := by
  intro l
  induction l with
  | nil => intro i; exact ⟨rfl, rfl⟩
  | cons s rest ih =>
    intro i
    obtain ⟨ih1, ih2⟩ := ih (i + 1)
    have hle := countFailures_le deliver rest.length (i + 1)
    simp only [send_campaign_loop, countFailures, List.length_cons]
    cases h : deliver i <;> simp [h, ih1, ih2] <;> omega

theorem send_campaign_loop_map_email (deliver : Nat → SendAttempt) (now : Nat) :
    ∀ (l : List Subscriber) (i : Nat),
      ((send_campaign_loop deliver now l i).2.2).map (fun s => s.email) =
        l.map (fun s => s.email) := by
  intro l
  induction l with
  | nil => intro i; rfl
  | cons s rest ih =>
    intro i
    simp only [send_campaign_loop]
    cases h : deliver i <;> simp [h, ih (i + 1)]

theorem mergeBack_map_email (p : Subscriber → Bool) :
    ∀ (subs updated : List Subscriber),
      updated.map (fun s => s.email) = ((subs.filter p).map (fun s => s.email)) →
      (mergeBack p subs updated).map (fun s => s.email) = subs.map (fun s => s.email) := by
  intro subs
  induction subs with
  | nil => intro updated h; rfl
  | cons s rest ih =>
    intro updated h
    by_cases hp : p s = true
    · rw [List.filter_cons_of_pos hp] at h
      cases updated with
      | nil => simp at h
      | cons u us =>
        simp only [List.map_cons, List.cons.injEq] at h
        obtain ⟨h1, h2⟩ := h
        simp [mergeBack, hp, h1, ih us h2]
    · rw [List.filter_cons_of_neg hp] at h
      simp [mergeBack, hp, ih updated h]

theorem send_campaign_map_email (deliver : Nat → SendAttempt) (c : Campaign)
    (subs : List Subscriber) (now : Nat) :
    ((send_campaign deliver c subs now).2.2).map (fun s => s.email) =
      subs.map (fun s => s.email) := by
  by_cases h1 : c.status = "sent"
  · simp [send_campaign, h1]
  · by_cases h2 : eligibleRecipients c.target_segment subs = []
    · simp [send_campaign, h1, h2]
    · simp only [send_campaign, h1, h2, if_false, ite_false]
      apply mergeBack_map_email
      rw [send_campaign_loop_map_email]
      rfl

theorem uniqueEmails_iff_pairwise_map (l : List Subscriber) :
    uniqueEmails l ↔ (l.map (fun s => s.email)).Pairwise (fun a b => a ≠ b) := by
  rw [uniqueEmails]
  exact (List.pairwise_map).symm

theorem uniqueEmails_congr {l1 l2 : List Subscriber}
    (hmap : l2.map (fun s => s.email) = l1.map (fun s => s.email)) :
    uniqueEmails l1 → uniqueEmails l2 := by
  intro h
  rw [uniqueEmails_iff_pairwise_map] at h ⊢
  rw [hmap]
  exact h

theorem updateFirst_map_email (email : String) (f : Subscriber → Subscriber)
    (hf : ∀ r, (f r).email = r.email) :
    ∀ subs : List Subscriber,
      (updateFirst subs email f).map (fun s => s.email) = subs.map (fun s => s.email) := by
  intro subs
  induction subs with
  | nil => rfl
  | cons s rest ih =>
    simp only [updateFirst]
    split
    · simp [hf]
    · simp [ih]

theorem email_ne_of_findSubscriber_none {subs : List Subscriber} {email : String}
    (hnone : findSubscriber subs email = none) : ∀ a ∈ subs, a.email ≠ email := by
  intro a ha
  have := List.find?_eq_none.mp hnone a ha
  simpa using this

theorem subscribe_preserves_uniqueEmails (emailValid : String → Bool)
    (subs : List Subscriber) (e n t : String) (now : Nat)
    (h : uniqueEmails subs) : uniqueEmails (subscribe emailValid subs e n t now).2 := by
  by_cases hguard : (pyStrip e = "" ∨ emailValid (pyStrip e) = false)
  · simp [subscribe, hguard]
    exact h
  · cases hfind : findSubscriber subs (pyStrip e) with
    | some ex =>
      by_cases hst : ex.status = "unsubscribed"
      · simp only [subscribe, hguard, hfind, hst, if_true, if_false, ite_false]
        exact uniqueEmails_congr
          (updateFirst_map_email (pyStrip e) (reactivateRecord (pyStrip n)) (fun r => rfl) subs) h
      · simp [subscribe, hguard, hfind, hst]
        exact h
    | none =>
      simp [subscribe, hguard, hfind]
      rw [uniqueEmails, List.pairwise_append]
      refine ⟨h, by simp, ?_⟩
      intro a ha b hb
      simp only [List.mem_singleton] at hb
      subst hb
      exact email_ne_of_findSubscriber_none hfind a ha

theorem unsubscribe_preserves_uniqueEmails (subs : List Subscriber) (email : String)
    (h : uniqueEmails subs) : uniqueEmails (unsubscribe_subscriber subs email).2 := by
  cases hfind : findSubscriber subs email with
  | some ex =>
    simp only [unsubscribe_subscriber, hfind]
    exact uniqueEmails_congr
      (updateFirst_map_email email (fun r => { r with status := "unsubscribed" }) (fun r => rfl) subs) h
  | none =>
    simp only [unsubscribe_subscriber, hfind]
    exact h


/-- C1: a dispatch over a resolved recipient set of N subscribers in which
exactly K per-recipient deliveries fail (send_email returning False or an
exception caught by the per-recipient handler) returns and persists
sent-count = N - K and failed-count = K, sets total-recipients = N and
final status = sent, for every failure pattern: no recipient failure
aborts the batch. -/
theorem send_campaign_partial_failure_tallies (deliver : Nat → SendAttempt)
    (c : Campaign) (subs : List Subscriber) (now : Nat)
    (h1 : c.status ≠ "sent")
    (h2 : eligibleRecipients c.target_segment subs ≠ []) :
    (send_campaign deliver c subs now).1 =
      SendOutcome.sent
        ((eligibleRecipients c.target_segment subs).length -
          countFailures deliver 0 (eligibleRecipients c.target_segment subs).length)
        (countFailures deliver 0 (eligibleRecipients c.target_segment subs).length) ∧
    (send_campaign deliver c subs now).2.1.status = "sent" ∧
    (send_campaign deliver c subs now).2.1.sent_count =
      (eligibleRecipients c.target_segment subs).length -
        countFailures deliver 0 (eligibleRecipients c.target_segment subs).length ∧
    (send_campaign deliver c subs now).2.1.failed_count =
      countFailures deliver 0 (eligibleRecipients c.target_segment subs).length ∧
    (send_campaign deliver c subs now).2.1.total_recipients =
      (eligibleRecipients c.target_segment subs).length := by
  obtain ⟨hsc, hfc⟩ :=
    send_campaign_loop_counts deliver now (eligibleRecipients c.target_segment subs) 0
  simp [send_campaign, h1, h2, hsc, hfc]

/-- Witness for C1: three eligible recipients, the delivery to the second
one fails, tallies are 2 sent and 1 failed. -/
theorem send_campaign_partial_failure_tallies_witness :
    (send_campaign (fun i => if i = 1 then SendAttempt.failure else SendAttempt.success)
        { name := "c", subject := "s", content := "b" }
        [{ email := "a@x.com" }, { email := "b@x.com" }, { email := "c@x.com", status := "" }]
        7).1 = SendOutcome.sent 2 1 := by
  have h := (send_campaign_partial_failure_tallies
      (fun i => if i = 1 then SendAttempt.failure else SendAttempt.success)
      { name := "c", subject := "s", content := "b" }
      [{ email := "a@x.com" }, { email := "b@x.com" }, { email := "c@x.com", status := "" }]
      7 (by decide) (by decide)).1
  exact h.trans (by decide)

/-- C2: segment active resolves exactly the subscribers with status
active; any other segment resolves exactly those with status active or
the empty string; bounced and unsubscribed subscribers are never
resolved under either segment. -/
theorem eligibleRecipients_characterization (target_segment : String)
    (subs : List Subscriber) (s : Subscriber) :
    (s ∈ eligibleRecipients target_segment subs ↔
      s ∈ subs ∧ (if target_segment = "active" then s.status = "active"
                  else (s.status = "active" ∨ s.status = ""))) ∧
    ((s.status = "bounced" ∨ s.status = "unsubscribed") →
      s ∉ eligibleRecipients target_segment subs) := by
  have hmem : s ∈ eligibleRecipients target_segment subs ↔
      s ∈ subs ∧ recipientPred target_segment s = true := List.mem_filter
  constructor
  · rw [hmem]
    unfold recipientPred
    split <;> simp [Bool.or_eq_true, beq_iff_eq]
  · intro hst hin
    rw [hmem] at hin
    obtain ⟨-, hpred⟩ := hin
    unfold recipientPred at hpred
    rcases hst with h | h <;> split at hpred <;> simp [h] at hpred

/-- Witness for C2: a bounced subscriber is excluded under segment all. -/
theorem eligibleRecipients_characterization_witness :
    ({ email := "b@x.com", status := "bounced" } : Subscriber) ∉
      eligibleRecipients "all" [{ email := "b@x.com", status := "bounced" }] :=
  (eligibleRecipients_characterization "all"
    [{ email := "b@x.com", status := "bounced" }]
    { email := "b@x.com", status := "bounced" }).2 (Or.inl rfl)

/-- C3: a freshly issued token verifies back to its email at elapsed
time zero; a token older than one year (31536000 seconds) never
verifies; a token whose signature was altered is rejected as invalid. -/
theorem token_issue_verify_expiry_tamper (sign : String → Nat → Nat)
    (email : String) (now : Nat) :
    verifyToken sign (issueToken sign email now) now = VerifyResult.ok email ∧
    (∀ later e2, later - now > 31536000 →
      verifyToken sign (issueToken sign email now) later ≠ VerifyResult.ok e2) ∧
    (∀ s later, s ≠ sign email now →
      verifyToken sign { issueToken sign email now with sig := s } later =
        VerifyResult.invalidToken) := by
  refine ⟨?_, ?_, ?_⟩
  · simp [verifyToken, issueToken, maxTokenAge]
  · intro later e2 hage
    simp [verifyToken, issueToken, maxTokenAge, hage]
  · intro s later hs
    simp [verifyToken, issueToken, hs]

/-- Witness for C3 at a concrete signing function, email and clock. -/
theorem token_issue_verify_expiry_tamper_witness :
    verifyToken (fun e t => e.length + t)
        (issueToken (fun e t => e.length + t) "user@example.com" 100) 100 =
      VerifyResult.ok "user@example.com" ∧
    verifyToken (fun e t => e.length + t)
        (issueToken (fun e t => e.length + t) "user@example.com" 100) 31536201 ≠
      VerifyResult.ok "user@example.com" ∧
    verifyToken (fun e t => e.length + t)
        { issueToken (fun e t => e.length + t) "user@example.com" 100 with sig := 0 } 100 =
      VerifyResult.invalidToken := by
  obtain ⟨h1, h2, h3⟩ :=
    token_issue_verify_expiry_tamper (fun e t => e.length + t) "user@example.com" 100
  exact ⟨h1, h2 31536201 "user@example.com" (by decide), h3 0 100 (by decide)⟩

/-- C4: a sent campaign is terminal: a second send is the already-sent
no-op leaving the row exactly as the first send persisted it, and
deletion is refused with the row kept. -/
theorem sent_campaign_terminal (deliver : Nat → SendAttempt) (c : Campaign)
    (subs : List Subscriber) (now : Nat) (h : c.status = "sent") :
    send_campaign deliver c subs now = (SendOutcome.alreadySent, c, subs) ∧
    delete_campaign c = (DeleteOutcome.refused, some c) := by
  constructor <;> simp [send_campaign, delete_campaign, h]

/-- Witness for C4 on a concrete sent campaign. -/
theorem sent_campaign_terminal_witness :
    send_campaign (fun _ => SendAttempt.success)
        { name := "c", subject := "s", content := "b", status := "sent" } [] 0 =
      (SendOutcome.alreadySent,
        { name := "c", subject := "s", content := "b", status := "sent" }, []) ∧
    delete_campaign { name := "c", subject := "s", content := "b", status := "sent" } =
      (DeleteOutcome.refused,
        some { name := "c", subject := "s", content := "b", status := "sent" }) :=
  sent_campaign_terminal (fun _ => SendAttempt.success)
    { name := "c", subject := "s", content := "b", status := "sent" } [] 0 rfl

/-- C5: a not-yet-sent campaign whose resolved recipient set is empty
gets the no-subscribers failure outcome and its row is returned
untouched: in particular a draft stays a draft and no counter or
timestamp changes. -/
theorem send_campaign_empty_recipients (deliver : Nat → SendAttempt)
    (c : Campaign) (subs : List Subscriber) (now : Nat)
    (h1 : c.status ≠ "sent")
    (h2 : eligibleRecipients c.target_segment subs = []) :
    send_campaign deliver c subs now = (SendOutcome.noSubscribers, c, subs) := by
  simp [send_campaign, h1, h2]

/-- Witness for C5: a draft campaign over a registry holding only a
bounced subscriber resolves no recipients and is left untouched. -/
theorem send_campaign_empty_recipients_witness :
    send_campaign (fun _ => SendAttempt.success)
        { name := "c", subject := "s", content := "b" }
        [{ email := "b@x.com", status := "bounced" }] 3 =
      (SendOutcome.noSubscribers, { name := "c", subject := "s", content := "b" },
        [{ email := "b@x.com", status := "bounced" }]) :=
  send_campaign_empty_recipients (fun _ => SendAttempt.success)
    { name := "c", subject := "s", content := "b" }
    [{ email := "b@x.com", status := "bounced" }] 3 (by decide) (by decide)

/-- C6: subscribing a valid email with no existing record and then
subscribing it again yields already-subscribed on the second call, no
mutation on the second call, and exactly one record for the email. -/
theorem subscribe_twice_single_record (emailValid : String → Bool)
    (subs : List Subscriber) (e n1 t1 n2 t2 : String) (now1 now2 : Nat)
    (hne : pyStrip e ≠ "") (hv : emailValid (pyStrip e) = true)
    (hnone : findSubscriber subs (pyStrip e) = none) :
    (subscribe emailValid subs e n1 t1 now1).1 = SubscribeOutcome.subscribed ∧
    subscribe emailValid (subscribe emailValid subs e n1 t1 now1).2 e n2 t2 now2 =
      (SubscribeOutcome.alreadySubscribed, (subscribe emailValid subs e n1 t1 now1).2) ∧
    countEmail (subscribe emailValid subs e n1 t1 now1).2 (pyStrip e) = 1 := by
  have hguard : ¬ (pyStrip e = "" ∨ emailValid (pyStrip e) = false) := by
    simp [hne, hv]
  have hfirst : subscribe emailValid subs e n1 t1 now1 =
      (SubscribeOutcome.subscribed,
        subs ++ [{ email := pyStrip e, name := pyStrip n1, phone := none
                   insurance_type := pyStrip t1, status := "active"
                   subscribed_at := now1, last_campaign_sent := none }]) := by
    simp [subscribe, hguard, hnone]
  have hfind2 : findSubscriber
      (subs ++ [{ email := pyStrip e, name := pyStrip n1, phone := none
                  insurance_type := pyStrip t1, status := "active"
                  subscribed_at := now1, last_campaign_sent := none }]) (pyStrip e) =
      some { email := pyStrip e, name := pyStrip n1, phone := none
             insurance_type := pyStrip t1, status := "active"
             subscribed_at := now1, last_campaign_sent := none } := by
    unfold findSubscriber at hnone ⊢
    rw [List.find?_append, hnone]
    simp
  have hzero : countEmail subs (pyStrip e) = 0 := by
    rw [countEmail, List.countP_eq_zero]
    intro a ha
    simpa using email_ne_of_findSubscriber_none hnone a ha
  refine ⟨by rw [hfirst], ?_, ?_⟩
  · rw [hfirst]
    simp [subscribe, hguard, hfind2]
  · rw [hfirst, countEmail, List.countP_append]
    rw [countEmail] at hzero
    simp [hzero]

/-- Witness for C6 on a concrete fresh email and empty registry. -/
theorem subscribe_twice_single_record_witness :
    (subscribe validEmailModel [] "bob@x.com" "Bob" "auto" 1).1 =
      SubscribeOutcome.subscribed ∧
    subscribe validEmailModel (subscribe validEmailModel [] "bob@x.com" "Bob" "auto" 1).2
        "bob@x.com" "B" "life" 2 =
      (SubscribeOutcome.alreadySubscribed,
        (subscribe validEmailModel [] "bob@x.com" "Bob" "auto" 1).2) ∧
    countEmail (subscribe validEmailModel [] "bob@x.com" "Bob" "auto" 1).2
      (pyStrip "bob@x.com") = 1 :=
  subscribe_twice_single_record validEmailModel [] "bob@x.com" "Bob" "auto" "B" "life" 1 2
    (by decide) (by decide) rfl

/-- C7: the renderer is a pure function that embeds the unsubscribe
link verbatim inside an anchor href for every variant, and any variant
other than default, promotional or newsletter renders the default
document. -/
theorem get_email_template_anchor_and_fallback
    (template_type content unsubscribe_token : String) :
    embedsInAnchor (get_email_template template_type content unsubscribe_token)
      (unsubscribe_link unsubscribe_token) ∧
    (template_type ≠ "default" → template_type ≠ "promotional" →
      template_type ≠ "newsletter" →
      get_email_template template_type content unsubscribe_token =
        get_email_template "default" content unsubscribe_token) := by
  constructor
  · unfold get_email_template
    split
    · exact ⟨default_head ++ content ++ default_mid, default_tail, rfl⟩
    · split
      · exact ⟨promotional_head ++ content ++ promotional_mid, promotional_tail, rfl⟩
      · split
        · exact ⟨newsletter_head ++ content ++ newsletter_mid, newsletter_tail, rfl⟩
        · exact ⟨default_head ++ content ++ default_mid, default_tail, rfl⟩
  · intro h1 h2 h3
    simp [get_email_template, h1, h2, h3]

/-- Witness for C7: an unrecognized variant renders the default
document, which embeds the link of the given token in an anchor. -/
theorem get_email_template_anchor_and_fallback_witness :
    embedsInAnchor (get_email_template "bogus" "hello" "tok123")
      (unsubscribe_link "tok123") ∧
    get_email_template "bogus" "hello" "tok123" =
      get_email_template "default" "hello" "tok123" := by
  obtain ⟨h1, h2⟩ := get_email_template_anchor_and_fallback "bogus" "hello" "tok123"
  exact ⟨h1, h2 (by decide) (by decide) (by decide)⟩

/-- C8 counterexample: subscribing two addresses that differ only in
letter case creates two coexisting records whose emails are equal up to
case, so case-insensitive email uniqueness fails on the code. -/
theorem email_uniqueness_case_insensitive_cex :
    (subscribe validEmailModel [] "A@x.com" "" "" 0).1 = SubscribeOutcome.subscribed ∧
    (subscribe validEmailModel
        ((subscribe validEmailModel [] "A@x.com" "" "" 0).2) "a@x.com" "" "" 1).1 =
      SubscribeOutcome.subscribed ∧
    ¬ uniqueEmailsCI
        ((subscribe validEmailModel
          ((subscribe validEmailModel [] "A@x.com" "" "" 0).2) "a@x.com" "" "" 1).2) := by
  refine ⟨by decide, by decide, by decide⟩

/-- C8 amended: email uniqueness holds exactly (case-sensitively)
across every operation: subscribe (including reactivation),
unsubscribe, and campaign dispatch each preserve the invariant that no
two subscriber records carry the same email string. -/
theorem email_uniqueness_case_sensitive_preserved (emailValid : String → Bool)
    (subs : List Subscriber) (e n t e2 : String) (now now2 : Nat)
    (deliver : Nat → SendAttempt) (c : Campaign)
    (h : uniqueEmails subs) :
    uniqueEmails (subscribe emailValid subs e n t now).2 ∧
    uniqueEmails (unsubscribe_subscriber subs e2).2 ∧
    uniqueEmails (send_campaign deliver c subs now2).2.2 :=
  ⟨subscribe_preserves_uniqueEmails emailValid subs e n t now h,
   unsubscribe_preserves_uniqueEmails subs e2 h,
   uniqueEmails_congr (send_campaign_map_email deliver c subs now2) h⟩

/-- Witness for the amended C8 on a concrete one-record registry. -/
theorem email_uniqueness_case_sensitive_preserved_witness :
    uniqueEmails (subscribe validEmailModel [{ email := "a@x.com" }] "b@x.com" "" "" 1).2 ∧
    uniqueEmails (unsubscribe_subscriber [{ email := "a@x.com" }] "a@x.com").2 ∧
    uniqueEmails (send_campaign (fun _ => SendAttempt.success)
      { name := "c", subject := "s", content := "b" } [{ email := "a@x.com" }] 2).2.2 :=
  email_uniqueness_case_sensitive_preserved validEmailModel [{ email := "a@x.com" }]
    "b@x.com" "" "" "a@x.com" 1 2 (fun _ => SendAttempt.success)
    { name := "c", subject := "s", content := "b" } (by decide)

/-- C9: with an absent (empty) transport username or password,
send_email returns failure at once, opening no connection and raising
nothing to its caller. -/
theorem send_email_missing_credentials (cfg : SmtpConfig)
    (transport : String → String → String → Option String → Bool)
    (to_email subject html_content : String) (text_content : Option String)
    (h : cfg.smtp_username = "" ∨ cfg.smtp_password = "") :
    send_email cfg transport to_email subject html_content text_content =
      { returned := false, connection_attempted := false } := by
  simp [send_email, h]

/-- Witness for C9 with an empty username. -/
theorem send_email_missing_credentials_witness :
    send_email
        { smtp_server := "smtp.gmail.com", smtp_port := 587, smtp_username := ""
          smtp_password := "pw", from_email := "noreply@insurancepro.com" }
        (fun _ _ _ _ => true) "a@x.com" "subj" "<p>hi</p>" none =
      { returned := false, connection_attempted := false } :=
  send_email_missing_credentials
    { smtp_server := "smtp.gmail.com", smtp_port := 587, smtp_username := ""
      smtp_password := "pw", from_email := "noreply@insurancepro.com" }
    (fun _ _ _ _ => true) "a@x.com" "subj" "<p>hi</p>" none (Or.inl rfl)

/-- C10: reactivating an unsubscribed record changes only its status
(to active) and, when a non-empty name was submitted, its name; email,
phone, insurance-interest tag and both timestamps are untouched, and
the insurance-interest tag submitted with the request is discarded. -/
theorem subscribe_reactivation_frame (emailValid : String → Bool)
    (subs : List Subscriber) (e n t : String) (now : Nat) (ex : Subscriber)
    (hne : pyStrip e ≠ "") (hv : emailValid (pyStrip e) = true)
    (hfind : findSubscriber subs (pyStrip e) = some ex)
    (hstatus : ex.status = "unsubscribed") :
    subscribe emailValid subs e n t now =
      (SubscribeOutcome.reactivated,
        updateFirst subs (pyStrip e) (reactivateRecord (pyStrip n))) ∧
    (∀ r : Subscriber,
      (reactivateRecord (pyStrip n) r).email = r.email ∧
      (reactivateRecord (pyStrip n) r).phone = r.phone ∧
      (reactivateRecord (pyStrip n) r).insurance_type = r.insurance_type ∧
      (reactivateRecord (pyStrip n) r).subscribed_at = r.subscribed_at ∧
      (reactivateRecord (pyStrip n) r).last_campaign_sent = r.last_campaign_sent ∧
      (reactivateRecord (pyStrip n) r).status = "active" ∧
      (reactivateRecord (pyStrip n) r).name =
        (if pyStrip n = "" then r.name else pyStrip n)) ∧
    (∀ t2 : String, subscribe emailValid subs e n t2 now =
      subscribe emailValid subs e n t now) := by
  have hguard : ¬ (pyStrip e = "" ∨ emailValid (pyStrip e) = false) := by
    simp [hne, hv]
  have hmain : ∀ tt : String, subscribe emailValid subs e n tt now =
      (SubscribeOutcome.reactivated,
        updateFirst subs (pyStrip e) (reactivateRecord (pyStrip n))) := by
    intro tt
    simp [subscribe, hguard, hfind, hstatus]
  refine ⟨hmain t, ?_, fun t2 => (hmain t2).trans (hmain t).symm⟩
  intro r
  simp [reactivateRecord]

/-- Witness for C10: a concrete unsubscribed record is reactivated with
a new name while its other columns and the submitted tag are ignored. -/
theorem subscribe_reactivation_frame_witness :
    subscribe validEmailModel
        [{ email := "a@x.com", name := "Old", insurance_type := "life"
           status := "unsubscribed", subscribed_at := 5 }]
        "a@x.com" "New" "auto" 9 =
      (SubscribeOutcome.reactivated,
        [{ email := "a@x.com", name := "New", insurance_type := "life"
           status := "active", subscribed_at := 5 }]) := by
  have h := (subscribe_reactivation_frame validEmailModel
      [{ email := "a@x.com", name := "Old", insurance_type := "life"
         status := "unsubscribed", subscribed_at := 5 }]
      "a@x.com" "New" "auto" 9
      { email := "a@x.com", name := "Old", insurance_type := "life"
        status := "unsubscribed", subscribed_at := 5 }
      (by decide) (by decide) (by decide) rfl).1
  exact h.trans (by decide)


end InsurancePro
